import Mathlib

/-!
Verification development for the SMD Intelligence Hub dashboard (`src/app.py`).

The file shallowly embeds the analytics core of the application:
the date/ID codec (`to_date_id` / `from_date_id`), the trend classifier
(`calculate_trend`), the insight generator (`generate_insights`), the KPI
card status computation (`create_kpi_card`), and the login check (`login`).
Machine integers are modelled as `Int`/`Nat`, SQL `REAL` columns (nullable
floats) as `Option ℚ` (a `none` models SQL `NULL`, which pandas surfaces as
`NaN`: truthy in Python, and all `NaN` comparisons are false), and fallible
Python code as `Except`.
-/

/-! ## Date/ID codec (`src/app.py` lines 176-181)

Python `str`/`int` round through decimal digit strings.  A Python string of
an integer is modelled as a `List PyChar`: an optional leading minus sign
followed by decimal digits most-significant first. -/

/-- A character of the decimal string representation of a Python integer. -/
inductive PyChar where
  | minus : PyChar
  | digit : Nat → PyChar
deriving DecidableEq, Repr

/-- Fuel-driven decimal digits of a natural number, least significant first.
The fuel argument makes the definition structural (hence kernel-reducible);
`fuel = n` always suffices. -/
def natDigitsAux : Nat → Nat → List Nat
  | 0, _ => []
  | fuel + 1, n => if n = 0 then [] else n % 10 :: natDigitsAux fuel (n / 10)

/-- Decimal digits of a natural number, least significant first (empty for 0). -/
def natDigitsLSD (n : Nat) : List Nat :=
  natDigitsAux n n

/-- Decimal digits most significant first, as printed by Python `str`:
`str(0) = "0"`, no leading zeros otherwise. -/
def natDigitsM (n : Nat) : List Nat :=
  if n = 0 then [0] else (natDigitsLSD n).reverse

/-- The exactly-`k`-digit decimal expansion of `n % 10^k`, most significant
first (zero padded). -/
def padList : Nat → Nat → List Nat
  | 0, _ => []
  | k + 1, n => n / 10 ^ k :: padList k (n % 10 ^ k)

/-- Value of a most-significant-first digit list. -/
def natOfDigitsV (l : List Nat) : Nat :=
  l.foldl (fun a d => a * 10 + d) 0

/-- Python `str(n)` for an integer `n`. -/
def pyStr (n : Int) : List PyChar :=
  if n < 0 then .minus :: (natDigitsM n.natAbs).map .digit
  else (natDigitsM n.toNat).map .digit

/-- Accumulating parser for a run of decimal digits; fails on a minus sign. -/
def natOfDigitsGo : List PyChar → Nat → Option Nat
  | [], acc => some acc
  | .digit d :: rest, acc => natOfDigitsGo rest (acc * 10 + d)
  | .minus :: _, _ => none

/-- Parse a nonempty all-digit string as a natural number. -/
def natOfDigitsOpt (cs : List PyChar) : Option Nat :=
  if cs.isEmpty then none else natOfDigitsGo cs 0

/-- Python `int(s)` on a decimal string: an optional leading minus sign
followed by at least one digit; anything else raises `ValueError`. -/
def pyInt (cs : List PyChar) : Except String Int :=
  match cs with
  | [] => .error "invalid literal for int"
  | .minus :: rest =>
    match natOfDigitsOpt rest with
    | some v => .ok (-(v : Int))
    | none => .error "invalid literal for int"
  | _ =>
    match natOfDigitsOpt cs with
    | some v => .ok (v : Int)
    | none => .error "invalid literal for int"

/-- Gregorian leap-year test, as in Python's `calendar`/`datetime`. -/
def isLeap (y : Nat) : Bool :=
  y % 4 == 0 && (y % 100 != 0 || y % 400 == 0)

/-- Days in a month, as validated by Python's `datetime.date`. -/
def daysInMonth (y m : Nat) : Nat :=
  if m = 2 then (if isLeap y then 29 else 28)
  else if m = 4 ∨ m = 6 ∨ m = 9 ∨ m = 11 then 30
  else 31

/-- A Python `datetime.date` value (the constructor validates the ranges). -/
structure PyDate where
  year : Nat
  month : Nat
  day : Nat
deriving DecidableEq, Repr

/-- The validity check performed by the `datetime.date` constructor:
`MINYEAR = 1 ≤ year ≤ MAXYEAR = 9999`, `1 ≤ month ≤ 12`,
`1 ≤ day ≤ days_in_month(year, month)`. -/
def PyDate.validB (d : PyDate) : Bool :=
  decide (1 ≤ d.year) && decide (d.year ≤ 9999) &&
  decide (1 ≤ d.month) && decide (d.month ≤ 12) &&
  decide (1 ≤ d.day) && decide (d.day ≤ daysInMonth d.year d.month)

/-- Python `date(y, m, d)`: returns the date or raises `ValueError`. -/
def pyDate_new (y m d : Int) : Except String PyDate :=
  if 1 ≤ y ∧ y ≤ 9999 ∧ 1 ≤ m ∧ m ≤ 12 ∧ 1 ≤ d ∧
      d ≤ (daysInMonth y.toNat m.toNat : Int)
  then .ok ⟨y.toNat, m.toNat, d.toNat⟩
  else .error "day is out of range for month"

/-- Python `"%02d"` formatting: zero-pad to two characters. -/
def pad2 (n : Nat) : List Nat :=
  if n < 10 then [0, n] else natDigitsM n

/-- The digit string `d.strftime("%Y%m%d")`: the year's decimal digits
followed by the zero-padded month and day.  (glibc does not zero-pad `%Y`
below four digits; the `int` value taken of this string below is the same
whether or not `%Y` pads, because `int` ignores leading zeros.) -/
def strftime_Ymd (d : PyDate) : List Nat :=
  natDigitsM d.year ++ pad2 d.month ++ pad2 d.day

/-- The source `to_date_id(d)` is `int(d.strftime("%Y%m%d"))` (`src/app.py` line 176). -/
def to_date_id (d : PyDate) : Int :=
  (natOfDigitsV (strftime_Ymd d) : Int)

/-- Python slice `s[i:j]` on a string. -/
def take_slice (s : List PyChar) (i j : Nat) : List PyChar :=
  (s.drop i).take (j - i)

/-- The source `from_date_id(date_id)` (`src/app.py` lines 179-181) is
`s = str(date_id); return date(int(s[:4]), int(s[4:6]), int(s[6:8]))`.
Any `ValueError` raised by `int` or by the `date` constructor propagates. -/
def from_date_id (date_id : Int) : Except String PyDate :=
  let s := pyStr date_id
  do
    let y ← pyInt (take_slice s 0 4)
    let m ← pyInt (take_slice s 4 6)
    let d ← pyInt (take_slice s 6 8)
    pyDate_new y m d

/-- Year component read from the first four characters of `str(n)`, for `n`
in the 7-digit (`n < 10^7`) or 8-digit range. -/
def sliceY (n : Int) : Int := if n < 10 ^ 7 then n / 1000 else n / 10000

/-- Month component read from `str(n)[4:6]` for 7- or 8-digit `n`. -/
def sliceM (n : Int) : Int := if n < 10 ^ 7 then (n / 10) % 100 else (n / 100) % 100

/-- Day component read from `str(n)[6:8]` for 7- or 8-digit `n`. -/
def sliceD (n : Int) : Int := if n < 10 ^ 7 then n % 10 else n % 100

/-- Strict calendar order on dates (year, then month, then day). -/
def PyDate.calLt (d1 d2 : PyDate) : Prop :=
  d1.year < d2.year ∨
    (d1.year = d2.year ∧
      (d1.month < d2.month ∨ (d1.month = d2.month ∧ d1.day < d2.day)))

/-! ## Trend classifier (`src/app.py` lines 495-507)

`calculate_trend(series, periods=7)` works on a pandas numeric series;
the series is modelled as a `List ℚ` (exact arithmetic; every constant in
the source — `5`, `100` — is integral). -/

/-- Arithmetic mean of a list (`Series.mean`); `0` on the empty list, which
never feeds a decision below when the window size is positive. -/
def listMean (l : List ℚ) : ℚ :=
  l.sum / l.length

/-- The source `calculate_trend` (`src/app.py` lines 495-507).
`series.tail(p)` is the trailing `p` elements (`drop (len - p)`);
`series.head(k)` is the leading `k`; `series.iloc[0]` is the first element. -/
def calculate_trend (series : List ℚ) (periods : Nat) : String × ℚ :=
  if series.length < 2 then ("stable", 0)
  else
    let recent := listMean (series.drop (series.length - periods))
    let previous :=
      if series.length > periods then listMean (series.take (series.length - periods))
      else series.headI
    if previous = 0 then ("new", 0)
    else
      let change := ((recent - previous) / previous) * 100
      if change > 5 then ("up", change)
      else if change < -5 then ("down", change)
      else ("stable", change)

/-- Reference trend definition, transcribed from the specification's words
(§4.2): `recent` is the mean of the last `periods` elements, `previous` the
mean of the all-but-the-last-`periods` prefix when the series is longer than
`periods` and otherwise the first element; `previous = 0` gives `("new", 0)`,
fewer than 2 points give `("stable", 0)`, and otherwise the percent change
classifies `> 5` up and `< -5` down. -/
def trend_ref (series : List ℚ) (periods : Nat) : String × ℚ :=
  if series.length < 2 then ("stable", 0)
  else
    let lastN := (series.reverse.take periods).reverse
    let recent := listMean lastN
    let previous :=
      if series.length > periods then listMean ((series.reverse.drop periods).reverse)
      else series.headI
    if previous = 0 then ("new", 0)
    else
      let change := ((recent - previous) / previous) * 100
      if change > 5 then ("up", change)
      else if change < -5 then ("down", change)
      else ("stable", change)

/-! ## Star-schema rows and the insight generator (`src/app.py` 509-551)

`generate_insights` opens the database and runs one SQL query joining
`fact_kpi_data` to `dim_kpi`; the database is modelled as explicit lists of
rows.  Nullable `REAL` columns are `Option ℚ`: SQL `NULL` becomes pandas
`NaN`, which is *truthy* in Python while every comparison against it is
false — `truthyQ`/`oLE`/`oLT`/... encode exactly that. -/

/-- A row of `fact_kpi_data` (`src/app.py` lines 220-224). -/
structure FactKpi where
  record_id : String
  date_id : Int
  dept_id : String
  kpi_id : String
  actual_value : Option ℚ
  target_value : Option ℚ
  created_ts : String
deriving DecidableEq, Repr

/-- A row of `dim_kpi` (`src/app.py` lines 206-210). -/
structure DimKpi where
  kpi_id : String
  kpi_name : String
  kpi_definition : String
  dept_id : String
  unit : String
  target_direction : String
deriving DecidableEq, Repr

/-- A row of `fact_work_item` (`src/app.py` lines 226-232). -/
structure WorkItem where
  work_id : String
  dept_id : String
  work_title : String
  work_type : String
  priority : String
  status : String
  progress_percent : Option ℚ
  start_date_id : Option Int
  due_date_id : Option Int
  risk_level : String
  notes : String
  created_ts : String
  updated_ts : String
deriving DecidableEq, Repr

/-- The tables of the embedded database that the analytics core reads. -/
structure DB where
  fact_kpi_data : List FactKpi
  dim_kpi : List DimKpi
  fact_work_item : List WorkItem
deriving Repr

/-- One row of the query
`SELECT k.*, d.kpi_name, d.target_direction FROM fact_kpi_data k JOIN dim_kpi d ON k.kpi_id = d.kpi_id`. -/
structure JoinedRow where
  record_id : String
  date_id : Int
  dept_id : String
  kpi_id : String
  actual_value : Option ℚ
  target_value : Option ℚ
  kpi_name : String
  target_direction : String
deriving DecidableEq, Repr

/-- Inner join of `fact_kpi_data` with `dim_kpi` on `kpi_id` (facts whose
`kpi_id` has no definition row are dropped — inner-join semantics). -/
def joinKpi (facts : List FactKpi) (kpis : List DimKpi) : List JoinedRow :=
  facts.flatMap fun k =>
    (kpis.filter fun d => d.kpi_id = k.kpi_id).map fun d =>
      ⟨k.record_id, k.date_id, k.dept_id, k.kpi_id, k.actual_value,
        k.target_value, d.kpi_name, d.target_direction⟩

/-- Insert into a list sorted by descending `date_id`. -/
def insertByDateDesc (r : JoinedRow) : List JoinedRow → List JoinedRow
  | [] => [r]
  | x :: xs => if r.date_id ≤ x.date_id then x :: insertByDateDesc r xs else r :: x :: xs

/-- SQL `ORDER BY k.date_id DESC` (insertion sort, descending). -/
def sortByDateDesc (l : List JoinedRow) : List JoinedRow :=
  l.foldr insertByDateDesc []

/-- The optional department filter `AND k.dept_id = '{dept_id}'`. -/
def matchDept (dept_id : Option String) (r : JoinedRow) : Bool :=
  match dept_id with
  | none => true
  | some d => r.dept_id = d

/-- Embedded `kpi_df` query of `generate_insights` (`src/app.py` lines 515-521):
join, restrict to the lookback window `date_id >= week_ago_id` (and the
department when given), order by `date_id` descending. -/
def kpi_query (db : DB) (dept_id : Option String) (week_ago_id : Int) : List JoinedRow :=
  sortByDateDesc ((joinKpi db.fact_kpi_data db.dim_kpi).filter fun r =>
    week_ago_id ≤ r.date_id ∧ matchDept dept_id r = true)

/-- Python truthiness of a nullable float column value: `0.0` is falsy;
`NaN` (a SQL `NULL` read through pandas) is truthy. -/
def truthyQ : Option ℚ → Bool
  | some q => q ≠ 0
  | none => true

/-- Comparison `a >= b` on nullable floats: any comparison involving `NaN` is false. -/
def oGE : Option ℚ → Option ℚ → Bool
  | some a, some b => a ≥ b
  | _, _ => false

/-- Comparison `a <= b` on nullable floats. -/
def oLE : Option ℚ → Option ℚ → Bool
  | some a, some b => a ≤ b
  | _, _ => false

/-- Comparison `a < b` on nullable floats. -/
def oLT : Option ℚ → Option ℚ → Bool
  | some a, some b => a < b
  | _, _ => false

/-- Comparison `a > b` on nullable floats. -/
def oGT : Option ℚ → Option ℚ → Bool
  | some a, some b => a > b
  | _, _ => false

/-- Multiply a nullable float by a constant (`target * 0.8`, `target * 1.5`). -/
def oScale (t : Option ℚ) (c : ℚ) : Option ℚ :=
  t.map (· * c)

/-- An insight record as appended by `generate_insights`.  The Python dict
carries `type`, `icon`, `text`, `severity`; the Thai `text` template
interpolates the KPI name and the two values, kept here as structured
fields (`kpi_name`, `actual`, `target`) since the string rendering is pure
presentation. -/
structure Insight where
  type : String
  icon : String
  kpi_name : String
  actual : Option ℚ
  target : Option ℚ
  severity : String
deriving DecidableEq, Repr

/-- The success insight (`type "success"`, icon ✅, severity low). -/
def mkSuccess (name : String) (a t : Option ℚ) : Insight :=
  ⟨"success", "✅", name, a, t, "low"⟩

/-- The danger insight (`type "danger"`, icon 🚨, severity high). -/
def mkDanger (name : String) (a t : Option ℚ) : Insight :=
  ⟨"danger", "🚨", name, a, t, "high"⟩

/-- Pandas `Series.unique()`: the distinct values in order of first appearance. -/
def uniqueFirst : List String → List String
  | [] => []
  | a :: as => a :: (uniqueFirst as).filter (· ≠ a)

/-- The source `generate_insights(dept_id)` (`src/app.py` lines 509-551).

The source computes `week_ago_id = to_date_id(date.today() - timedelta(days=7))`
from the real-time clock; the clock is outside the embedding, so
`week_ago_id` is a parameter (`today_id` is computed by the source but never
used).  For each distinct `kpi_id` of the query result the most recent row
is taken (`iloc[0]` of the date-descending frame, which also supplies
`kpi_name` and `target_direction`), and, when both `target_value` and
`actual_value` are truthy, a success or danger insight is appended
according to `target_direction`.  The `| [] => []` arm of the inner match
is unreachable (every id returned by `unique()` has at least one row). -/
def generate_insights (db : DB) (dept_id : Option String) (week_ago_id : Int) : List Insight :=
  let kpi_df := kpi_query db dept_id week_ago_id
  if kpi_df.isEmpty then []
  else
    (uniqueFirst (kpi_df.map (·.kpi_id))).flatMap fun kid =>
      match kpi_df.filter (fun r => r.kpi_id = kid) with
      | [] => []
      | latest :: _ =>
        let actual := latest.actual_value
        let target := latest.target_value
        if truthyQ target && truthyQ actual then
          if latest.target_direction = "higher_is_better" then
            if oGE actual target then [mkSuccess latest.kpi_name actual target]
            else if oLT actual (oScale target (4 / 5)) then
              [mkDanger latest.kpi_name actual target]
            else []
          else
            if oLE actual target then [mkSuccess latest.kpi_name actual target]
            else if oGT actual (oScale target (3 / 2)) then
              [mkDanger latest.kpi_name actual target]
            else []
        else []

/-! ## KPI card status (`src/app.py` lines 580-587) -/

/-- The status classification of `create_kpi_card(title, value, target, ...)`
(`src/app.py` lines 580-587): the pair `(status_class, status_icon)`.
The function takes no `target_direction` argument.  When `target` is truthy
the ratio is `value / target` (`1` on a zero target, unreachable after the
truthiness test for non-`NaN` targets) and the tiers are
`ratio ≥ 1 → green/✅`, `ratio ≥ 0.8 → amber/⚠️`, otherwise `red/❌`;
a falsy target gives the neutral `blue/📊`.  The surrounding HTML is
presentation and not modelled. -/
def create_kpi_card_status (value target : Option ℚ) : String × String :=
  if truthyQ target then
    let r : Option ℚ :=
      match value, target with
      | some v, some t => if t ≠ 0 then some (v / t) else some 1
      | _, _ => none
    (if oGE r (some 1) then "green" else if oGE r (some (4 / 5)) then "amber" else "red",
     if oGE r (some 1) then "✅" else if oGE r (some (4 / 5)) then "⚠️" else "❌")
  else ("blue", "📊")

/-! ## Specification-side classifiers (transcribed from the spec, §4.3/§4.4,
for comparison with the code) -/

/-- Spec §4.3, `higher_is_better` tiers on `ratio = actual / target`:
`ratio ≥ 1` on-target, `0.8 ≤ ratio < 1` at-risk, `ratio < 0.8` breach. -/
def spec_higher_tier (actual target : ℚ) : String :=
  if actual / target ≥ 1 then "on-target"
  else if actual / target ≥ 4 / 5 then "at-risk"
  else "breach"

/-- Spec §4.3, `lower_is_better` tiers: `actual ≤ target` on-target,
`target < actual ≤ 1.5 × target` at-risk, `actual > 1.5 × target` breach. -/
def spec_lower_tier (actual target : ℚ) : String :=
  if actual ≤ target then "on-target"
  else if actual ≤ 3 / 2 * target then "at-risk"
  else "breach"

/-- The color in which `create_kpi_card` renders each 3-tier status
(`src/app.py` line 583: green = on-target, amber = at-risk, red = breach). -/
def statusColor (tier : String) : String :=
  if tier = "on-target" then "green" else if tier = "at-risk" then "amber" else "red"

/-- Spec §4.4: the set of terminal work-item statuses (Done/Cancelled/Closed). -/
def terminalStatuses : List String := ["Done", "Cancelled", "Closed"]

/-- Spec §4.4: count of work items whose due date has passed and whose
status is not terminal (transcribed from the spec for comparison: the code
performs no such scan). -/
def spec_overdue_count (wis : List WorkItem) (today_id : Int) : Nat :=
  (wis.filter fun w =>
    (match w.due_date_id with
      | some due => decide (due < today_id)
      | none => false) && !(terminalStatuses.contains w.status)).length

/-- Spec §4.4: count of non-terminal work items at risk level High
(transcribed from the spec for comparison: the code performs no such scan). -/
def spec_high_risk_count (wis : List WorkItem) : Nat :=
  (wis.filter fun w =>
    w.risk_level = "High" && !(terminalStatuses.contains w.status)).length

/-! ## Login (`src/app.py` lines 468-481) -/

/-- A row of `dim_user` (`src/app.py` lines 213-217); `username` is the
primary key. -/
structure UserRow where
  username : String
  password_hash : String
  role : String
  dept_id : Option String
  person_id : Option String
  is_enabled : Int
deriving DecidableEq, Repr

/-- The session auth record written by a successful login. -/
structure AuthState where
  logged_in : Bool
  username : String
  role : String
  dept_id : Option String
deriving DecidableEq, Repr

/-- The source `login(username, password)` (`src/app.py` lines 468-481).  The SQL
`SELECT * FROM dim_user WHERE username = ? AND is_enabled = 1` is a filter;
`df.iloc[0]` is the first matching row.  `hashlib.sha256(...).hexdigest()`
is a library primitive and is modelled as an abstract function argument
`sha256`.  Returns the boolean result and the (possibly unchanged) session
auth state. -/
def login (sha256 : String → String) (users : List UserRow)
    (sess : Option AuthState) (username password : String) :
    Bool × Option AuthState :=
  match users.filter (fun u => u.username = username ∧ u.is_enabled = 1) with
  | [] => (false, sess)
  | row :: _ =>
    if row.password_hash ≠ sha256 password then (false, sess)
    else (true, some ⟨true, row.username, row.role, row.dept_id⟩)

/-! ## Test fixtures used by the claim theorems -/

/-- A database holding a single KPI fact (date id 5, department D, KPI id K)
joined to a single KPI definition with the given `target_direction`. -/
def db1 (dir : String) (a t : Option ℚ) : DB :=
  { fact_kpi_data := [⟨"r1", 5, "D", "K", a, t, "ts"⟩],
    dim_kpi := [⟨"K", "KPI1", "", "D", "", dir⟩],
    fact_work_item := [] }

/-- A database with three facts for one KPI (values 100, 100, 200 on dates
1 < 2 < 3) and no targets: three facts in the window with a trend change of
+33%, which per the spec should produce a trend insight. -/
def dbTrend : DB :=
  { fact_kpi_data :=
      [⟨"r1", 1, "D", "K", some 100, none, "ts"⟩,
       ⟨"r2", 2, "D", "K", some 100, none, "ts"⟩,
       ⟨"r3", 3, "D", "K", some 200, none, "ts"⟩],
    dim_kpi := [⟨"K", "KPI1", "", "D", "", "higher_is_better"⟩],
    fact_work_item := [] }

/-- A work item whose due date (20230105) has passed, whose status
(In Progress) is not terminal, and whose risk level is High. -/
def wiOverdue : WorkItem :=
  ⟨"w1", "D", "Overdue item", "Task", "High", "In Progress", some 10,
    some 20230101, some 20230105, "High", "", "ts", "ts"⟩

/-! ## Decimal digit and parsing lemmas -/

theorem natDigitsAux_eq (fuel : Nat) : ∀ n : Nat, n ≤ fuel → natDigitsAux fuel n = Nat.digits 10 n := by
  induction fuel with
  | zero =>
    intro n hn
    have : n = 0 := Nat.le_zero.mp hn
    subst this
    simp [natDigitsAux]
  | succ f ih =>
    intro n hn
    by_cases h0 : n = 0
    · subst h0; simp [natDigitsAux]
    · rw [natDigitsAux, if_neg h0, ih (n / 10) (by omega),
        Nat.digits_def' (by norm_num : 1 < 10) (Nat.pos_of_ne_zero h0)]

theorem natDigitsLSD_eq (n : Nat) : natDigitsLSD n = Nat.digits 10 n :=
  natDigitsAux_eq n n le_rfl

theorem padList_length : ∀ (k n : Nat), (padList k n).length = k := by
  intro k
  induction k with
  | zero => intro n; rfl
  | succ j ih => intro n; simp [padList, ih]

theorem padList_split : ∀ (j k n : Nat), n < 10 ^ (j + k) →
    padList (j + k) n = padList j (n / 10 ^ k) ++ padList k (n % 10 ^ k) := by
  intro j
  induction j with
  | zero =>
    intro k n hn
    rw [Nat.zero_add] at hn
    simp [padList, Nat.mod_eq_of_lt hn]
  | succ j ih =>
    intro k n hn
    have hadd : j + 1 + k = (j + k) + 1 := by omega
    rw [hadd, padList]
    have h1 : n / 10 ^ (j + k) = n / 10 ^ k / 10 ^ j := by
      rw [Nat.div_div_eq_div_mul, ← pow_add, Nat.add_comm k j]
    have h2 : padList (j + k) (n % 10 ^ (j + k)) =
        padList j (n / 10 ^ k % 10 ^ j) ++ padList k (n % 10 ^ k) := by
      rw [ih k (n % 10 ^ (j + k)) (Nat.mod_lt _ (by positivity))]
      congr 1
      · congr 1
        rw [show (10:Nat) ^ (j + k) = 10 ^ k * 10 ^ j by rw [← pow_add, Nat.add_comm]]
        exact Nat.mod_mul_right_div_self n (10 ^ k) (10 ^ j)
      · congr 1
        exact Nat.mod_mod_of_dvd n (pow_dvd_pow 10 (by omega))
    rw [h1, h2, padList]
    rfl

theorem foldl_digits_acc : ∀ (ds : List Nat) (acc : Nat),
    ds.foldl (fun a d => a * 10 + d) acc = acc * 10 ^ ds.length + natOfDigitsV ds := by
  intro ds
  induction ds with
  | nil => intro acc; simp [natOfDigitsV]
  | cons d ds ih =>
    intro acc
    rw [List.foldl_cons, ih (acc * 10 + d)]
    have hR : natOfDigitsV (d :: ds) = d * 10 ^ ds.length + natOfDigitsV ds := by
      rw [natOfDigitsV, List.foldl_cons]
      simpa using ih d
    rw [hR, List.length_cons, pow_succ]
    ring

theorem natOfDigitsV_append (xs ys : List Nat) :
    natOfDigitsV (xs ++ ys) = natOfDigitsV xs * 10 ^ ys.length + natOfDigitsV ys := by
  rw [natOfDigitsV, List.foldl_append, foldl_digits_acc]
  rfl

theorem natOfDigitsV_cons (d : Nat) (ds : List Nat) :
    natOfDigitsV (d :: ds) = d * 10 ^ ds.length + natOfDigitsV ds := by
  rw [natOfDigitsV, List.foldl_cons]
  simpa using foldl_digits_acc ds d

theorem padList_one (n : Nat) : padList 1 n = [n] := by
  show padList (0 + 1) n = [n]
  rw [padList]
  rw [show padList 0 (n % 10 ^ 0) = [] from rfl]
  norm_num

theorem padList_val : ∀ (k n : Nat), natOfDigitsV (padList (k + 1) n) = n := by
  intro k
  induction k with
  | zero =>
    intro n
    rw [padList_one, natOfDigitsV, List.foldl_cons]
    simp
  | succ j ih =>
    intro n
    rw [padList, natOfDigitsV_cons, padList_length, ih (n % 10 ^ (j + 1)),
      Nat.mul_comm (n / 10 ^ (j + 1)) (10 ^ (j + 1))]
    exact Nat.div_add_mod n (10 ^ (j + 1))

theorem digits_eq_padList_rev : ∀ (k n : Nat), 10 ^ k ≤ n → n < 10 ^ (k + 1) →
    Nat.digits 10 n = (padList (k + 1) n).reverse := by
  intro k
  induction k with
  | zero =>
    intro n h1 h2
    norm_num at h1 h2
    rw [Nat.digits_def' (by norm_num : 1 < 10) (by omega), Nat.div_eq_of_lt h2,
      Nat.digits_zero, padList_one, Nat.mod_eq_of_lt h2, List.reverse_singleton]
  | succ j ih =>
    intro n h1 h2
    have hpos : 0 < n := lt_of_lt_of_le (by positivity) h1
    rw [Nat.digits_def' (by norm_num : 1 < 10) hpos]
    rw [ih (n / 10) (Nat.le_div_iff_mul_le (by norm_num) |>.mpr (by rw [← pow_succ]; exact h1))
      (Nat.div_lt_iff_lt_mul (by norm_num) |>.mpr (by rw [← pow_succ]; exact h2))]
    have hsplit : padList (j + 1 + 1) n = padList (j + 1) (n / 10) ++ padList 1 (n % 10) := by
      have hs := padList_split (j + 1) 1 n (by rw [pow_succ] at h2; omega)
      simpa [pow_one] using hs
    rw [hsplit, List.reverse_append, padList_one, List.reverse_singleton,
      List.singleton_append]

theorem natDigitsM_eq_padList (k n : Nat) (h1 : 10 ^ k ≤ n) (h2 : n < 10 ^ (k + 1)) :
    natDigitsM n = padList (k + 1) n := by
  have h10 : 1 ≤ 10 ^ k := Nat.one_le_pow _ _ (by norm_num)
  rw [natDigitsM, if_neg (by omega : ¬ n = 0), natDigitsLSD_eq,
    digits_eq_padList_rev k n h1 h2, List.reverse_reverse]

theorem natOfDigitsV_reverse (l : List Nat) :
    natOfDigitsV l.reverse = Nat.ofDigits 10 l := by
  induction l with
  | nil => simp [natOfDigitsV, Nat.ofDigits]
  | cons d l ih =>
    rw [List.reverse_cons, natOfDigitsV_append, ih, Nat.ofDigits_cons]
    simp [natOfDigitsV]
    ring

theorem natDigitsM_val (n : Nat) : natOfDigitsV (natDigitsM n) = n := by
  by_cases h0 : n = 0
  · subst h0; simp [natDigitsM, natOfDigitsV]
  · rw [natDigitsM, if_neg h0, natDigitsLSD_eq, natOfDigitsV_reverse, Nat.ofDigits_digits]

theorem padList_two (n : Nat) : padList 2 n = [n / 10, n % 10] := by
  show padList (1 + 1) n = _
  rw [padList, padList_one]
  norm_num

theorem pad2_eq (n : Nat) (h : n < 100) : pad2 n = padList 2 n := by
  by_cases h10 : n < 10
  · rw [pad2, if_pos h10, padList_two, Nat.div_eq_of_lt h10, Nat.mod_eq_of_lt h10]
  · rw [pad2, if_neg h10]
    exact natDigitsM_eq_padList 1 n (by omega) (by norm_num; omega)

theorem daysInMonth_le (y m : Nat) : daysInMonth y m ≤ 31 := by
  rw [daysInMonth]
  split_ifs <;> norm_num

theorem validB_iff (d : PyDate) : d.validB = true ↔
    (1 ≤ d.year ∧ d.year ≤ 9999 ∧ 1 ≤ d.month ∧ d.month ≤ 12 ∧
      1 ≤ d.day ∧ d.day ≤ daysInMonth d.year d.month) := by
  simp [PyDate.validB, and_assoc]

theorem to_date_id_val (d : PyDate) (hm : d.month < 100) (hd : d.day < 100) :
    to_date_id d = ((d.year * 10000 + d.month * 100 + d.day : Nat) : Int) := by
  rw [to_date_id]
  congr 1
  rw [strftime_Ymd, pad2_eq _ hm, pad2_eq _ hd, natOfDigitsV_append, natOfDigitsV_append,
    natDigitsM_val, padList_length, padList_length]
  have h2 : natOfDigitsV (padList 2 d.month) = d.month := padList_val 1 d.month
  have h3 : natOfDigitsV (padList 2 d.day) = d.day := padList_val 1 d.day
  rw [h2, h3]
  ring

theorem natOfDigitsGo_digits : ∀ (ds : List Nat) (acc : Nat),
    natOfDigitsGo (ds.map .digit) acc = some (ds.foldl (fun a x => a * 10 + x) acc) := by
  intro ds
  induction ds with
  | nil => intro acc; rfl
  | cons d ds ih => intro acc; rw [List.map_cons, natOfDigitsGo, ih]; rfl

theorem pyInt_digits (ds : List Nat) (h : ds ≠ []) :
    pyInt (ds.map .digit) = .ok ((natOfDigitsV ds : Nat) : Int) := by
  rcases ds with - | ⟨d, ds⟩
  · exact absurd rfl h
  · have hstep : pyInt ((d :: ds).map .digit) =
        (match natOfDigitsOpt ((d :: ds).map .digit) with
          | some v => Except.ok (v : Int)
          | none => Except.error "invalid literal for int") := rfl
    rw [hstep, natOfDigitsOpt, if_neg (by simp), List.map_cons, natOfDigitsGo,
      natOfDigitsGo_digits]
    simp [natOfDigitsV]

theorem pyInt_minus_digits (ds : List Nat) (h : ds ≠ []) :
    pyInt (.minus :: ds.map .digit) = .ok (-((natOfDigitsV ds : Nat) : Int)) := by
  have hstep : pyInt (.minus :: ds.map .digit) =
      (match natOfDigitsOpt (ds.map .digit) with
        | some v => Except.ok (-(v : Int))
        | none => Except.error "invalid literal for int") := rfl
  rw [hstep, natOfDigitsOpt, if_neg (by simpa using h), natOfDigitsGo_digits]
  simp [natOfDigitsV]

theorem pyStr_natCast (N : Nat) : pyStr (N : Int) = (natDigitsM N).map .digit := by
  rw [pyStr, if_neg (not_lt.mpr (Int.natCast_nonneg N)), Int.toNat_natCast]

theorem natDigitsM_length_le (k N : Nat) (hk : 1 ≤ k) (h : N < 10 ^ k) :
    (natDigitsM N).length ≤ k := by
  by_cases h0 : N = 0
  · subst h0
    rw [natDigitsM, if_pos rfl]
    simpa using hk
  · rw [natDigitsM, if_neg h0, natDigitsLSD_eq, List.length_reverse,
      Nat.digits_len 10 N (by norm_num) h0]
    have hlog := Nat.log_lt_of_lt_pow h0 h
    omega

theorem natDigitsM_ne_nil (N : Nat) : natDigitsM N ≠ [] := by
  by_cases h0 : N = 0
  · subst h0; rw [natDigitsM, if_pos rfl]; simp
  · rw [natDigitsM, if_neg h0, natDigitsLSD_eq]
    simpa using Nat.digits_ne_nil_iff_ne_zero.mpr h0

/-! ## Evaluation of `from_date_id` by input magnitude -/

theorem from_date_id_eight (N : Nat) (h1 : 10 ^ 7 ≤ N) (h2 : N < 10 ^ 8) :
    from_date_id (N : Int) =
      pyDate_new ((N / 10000 : Nat) : Int) ((N / 100 % 100 : Nat) : Int)
        ((N % 100 : Nat) : Int) := by
  have hM : natDigitsM N = padList 8 N := natDigitsM_eq_padList 7 N h1 h2
  have hs44 : padList 8 N = padList 4 (N / 10 ^ 4) ++ padList 4 (N % 10 ^ 4) :=
    padList_split 4 4 N (by norm_num at h2 ⊢; exact h2)
  have hs62 : padList 8 N = padList 6 (N / 10 ^ 2) ++ padList 2 (N % 10 ^ 2) :=
    padList_split 6 2 N (by norm_num at h2 ⊢; exact h2)
  have hs22 : padList 4 (N % 10 ^ 4) =
      padList 2 (N % 10 ^ 4 / 10 ^ 2) ++ padList 2 (N % 10 ^ 4 % 10 ^ 2) :=
    padList_split 2 2 (N % 10 ^ 4) (by norm_num; exact Nat.mod_lt _ (by norm_num))
  have hy : take_slice (pyStr (N : Int)) 0 4 = (padList 4 (N / 10 ^ 4)).map .digit := by
    rw [pyStr_natCast, hM, take_slice, List.drop_zero, hs44, List.map_append,
      List.take_left' (by rw [List.length_map, padList_length])]
  have hm : take_slice (pyStr (N : Int)) 4 6 =
      (padList 2 (N % 10 ^ 4 / 10 ^ 2)).map .digit := by
    rw [pyStr_natCast, hM, take_slice, hs44, List.map_append,
      List.drop_left' (by rw [List.length_map, padList_length]), hs22, List.map_append,
      List.take_left' (by rw [List.length_map, padList_length])]
  have hd : take_slice (pyStr (N : Int)) 6 8 = (padList 2 (N % 10 ^ 2)).map .digit := by
    rw [pyStr_natCast, hM, take_slice, hs62, List.map_append,
      List.drop_left' (by rw [List.length_map, padList_length]),
      List.take_of_length_le (by rw [List.length_map, padList_length])]
  have hyv : pyInt (take_slice (pyStr (N : Int)) 0 4) = .ok ((N / 10 ^ 4 : Nat) : Int) := by
    rw [hy, pyInt_digits _ (by rw [show (4 : Nat) = 3 + 1 from rfl, padList]; simp),
      padList_val 3]
  have hmv : pyInt (take_slice (pyStr (N : Int)) 4 6) =
      .ok ((N % 10 ^ 4 / 10 ^ 2 : Nat) : Int) := by
    rw [hm, pyInt_digits _ (by rw [show (2 : Nat) = 1 + 1 from rfl, padList]; simp),
      padList_val 1]
  have hdv : pyInt (take_slice (pyStr (N : Int)) 6 8) = .ok ((N % 10 ^ 2 : Nat) : Int) := by
    rw [hd, pyInt_digits _ (by rw [show (2 : Nat) = 1 + 1 from rfl, padList]; simp),
      padList_val 1]
  rw [from_date_id]
  rw [show (10000 : Nat) = 10 ^ 4 from rfl, show (100 : Nat) = 10 ^ 2 from rfl]
  simp only [hyv, hmv, hdv, bind, Except.bind]
  have harith : N % 10 ^ 4 / 10 ^ 2 = N / 10 ^ 2 % 10 ^ 2 := by norm_num; omega
  rw [harith]

theorem from_date_id_seven (N : Nat) (h1 : 10 ^ 6 ≤ N) (h2 : N < 10 ^ 7) :
    from_date_id (N : Int) =
      pyDate_new ((N / 1000 : Nat) : Int) ((N / 10 % 100 : Nat) : Int)
        ((N % 10 : Nat) : Int) := by
  have hM : natDigitsM N = padList 7 N := natDigitsM_eq_padList 6 N h1 h2
  have hs43 : padList 7 N = padList 4 (N / 10 ^ 3) ++ padList 3 (N % 10 ^ 3) :=
    padList_split 4 3 N (by norm_num at h2 ⊢; exact h2)
  have hs61 : padList 7 N = padList 6 (N / 10 ^ 1) ++ padList 1 (N % 10 ^ 1) :=
    padList_split 6 1 N (by norm_num at h2 ⊢; exact h2)
  have hs21 : padList 3 (N % 10 ^ 3) =
      padList 2 (N % 10 ^ 3 / 10 ^ 1) ++ padList 1 (N % 10 ^ 3 % 10 ^ 1) :=
    padList_split 2 1 (N % 10 ^ 3) (by norm_num; exact Nat.mod_lt _ (by norm_num))
  have hy : take_slice (pyStr (N : Int)) 0 4 = (padList 4 (N / 10 ^ 3)).map .digit := by
    rw [pyStr_natCast, hM, take_slice, List.drop_zero, hs43, List.map_append,
      List.take_left' (by rw [List.length_map, padList_length])]
  have hm : take_slice (pyStr (N : Int)) 4 6 =
      (padList 2 (N % 10 ^ 3 / 10 ^ 1)).map .digit := by
    rw [pyStr_natCast, hM, take_slice, hs43, List.map_append,
      List.drop_left' (by rw [List.length_map, padList_length]), hs21, List.map_append,
      List.take_left' (by rw [List.length_map, padList_length])]
  have hd : take_slice (pyStr (N : Int)) 6 8 = (padList 1 (N % 10 ^ 1)).map .digit := by
    rw [pyStr_natCast, hM, take_slice, hs61, List.map_append,
      List.drop_left' (by rw [List.length_map, padList_length]),
      List.take_of_length_le (by rw [List.length_map, padList_length]; omega)]
  have hyv : pyInt (take_slice (pyStr (N : Int)) 0 4) = .ok ((N / 10 ^ 3 : Nat) : Int) := by
    rw [hy, pyInt_digits _ (by rw [show (4 : Nat) = 3 + 1 from rfl, padList]; simp),
      padList_val 3]
  have hmv : pyInt (take_slice (pyStr (N : Int)) 4 6) =
      .ok ((N % 10 ^ 3 / 10 ^ 1 : Nat) : Int) := by
    rw [hm, pyInt_digits _ (by rw [show (2 : Nat) = 1 + 1 from rfl, padList]; simp),
      padList_val 1]
  have hdv : pyInt (take_slice (pyStr (N : Int)) 6 8) = .ok ((N % 10 ^ 1 : Nat) : Int) := by
    rw [hd, pyInt_digits _ (by rw [padList_one]; simp), padList_one]
    have : natOfDigitsV [N % 10 ^ 1] = N % 10 ^ 1 := by
      simp [natOfDigitsV]
    rw [this]
  rw [from_date_id]
  simp only [hyv, hmv, hdv, bind, Except.bind]
  norm_num
  have harith : (N : Int) % 1000 / 10 = (N : Int) / 10 % 100 := by omega
  rw [harith]

theorem from_date_id_day_empty (n : Int) (h : (pyStr n).length ≤ 6) :
    ∃ e, from_date_id n = .error e := by
  have hd : take_slice (pyStr n) 6 8 = [] := by
    rw [take_slice, List.drop_eq_nil_of_le h]
    rfl
  rw [from_date_id]
  rcases hy : pyInt (take_slice (pyStr n) 0 4) with e | y
  · exact ⟨e, by simp only [hy, bind, Except.bind]⟩
  · rcases hm : pyInt (take_slice (pyStr n) 4 6) with e | m
    · exact ⟨e, by simp only [hy, hm, bind, Except.bind]⟩
    · exact ⟨"invalid literal for int", by simp only [hy, hm, hd, bind, Except.bind]; rfl⟩

theorem from_date_id_small (N : Nat) (h : N < 10 ^ 6) :
    ∃ e, from_date_id (N : Int) = .error e := by
  apply from_date_id_day_empty
  rw [pyStr_natCast, List.length_map]
  exact natDigitsM_length_le 6 N (by norm_num) h

theorem from_date_id_negative (n : Int) (h1 : n < 0) (h2 : -(10 ^ 7) < n) :
    ∃ e, from_date_id n = .error e := by
  have ha1 : 1 ≤ n.natAbs := by omega
  have ha7 : n.natAbs < 10 ^ 7 := by norm_num at h2 ⊢; omega
  have hstr : pyStr n = .minus :: (natDigitsM n.natAbs).map .digit := by
    rw [pyStr, if_pos h1]
  by_cases hL : (natDigitsM n.natAbs).length ≤ 5
  · apply from_date_id_day_empty
    rw [hstr, List.length_cons, List.length_map]
    omega
  · have hL7 : (natDigitsM n.natAbs).length ≤ 7 :=
      natDigitsM_length_le 7 n.natAbs (by norm_num) ha7
    have hL6 : 6 ≤ (natDigitsM n.natAbs).length := by omega
    have hy : take_slice (pyStr n) 0 4 =
        .minus :: ((natDigitsM n.natAbs).take 3).map .digit := by
      rw [hstr, take_slice, List.drop_zero]
      show List.take (3 + 1) _ = _
      rw [List.take_succ_cons, List.map_take]
    have hm : take_slice (pyStr n) 4 6 =
        (((natDigitsM n.natAbs).drop 3).take 2).map .digit := by
      rw [hstr, take_slice]
      show (List.drop (3 + 1) _).take 2 = _
      rw [List.drop_succ_cons]
      simp [List.map_take, List.map_drop]
    have hd : take_slice (pyStr n) 6 8 =
        (((natDigitsM n.natAbs).drop 5).take 2).map .digit := by
      rw [hstr, take_slice]
      show (List.drop (5 + 1) _).take 2 = _
      rw [List.drop_succ_cons]
      simp [List.map_take, List.map_drop]
    have hyv : pyInt (take_slice (pyStr n) 0 4) =
        .ok (-((natOfDigitsV ((natDigitsM n.natAbs).take 3) : Nat) : Int)) := by
      rw [hy]
      apply pyInt_minus_digits
      apply List.ne_nil_of_length_pos
      rw [List.length_take]
      omega
    have hmv : pyInt (take_slice (pyStr n) 4 6) =
        .ok ((natOfDigitsV (((natDigitsM n.natAbs).drop 3).take 2) : Nat) : Int) := by
      rw [hm]
      apply pyInt_digits
      apply List.ne_nil_of_length_pos
      rw [List.length_take, List.length_drop]
      omega
    have hdv : pyInt (take_slice (pyStr n) 6 8) =
        .ok ((natOfDigitsV (((natDigitsM n.natAbs).drop 5).take 2) : Nat) : Int) := by
      rw [hd]
      apply pyInt_digits
      apply List.ne_nil_of_length_pos
      rw [List.length_take, List.length_drop]
      omega
    refine ⟨"day is out of range for month", ?_⟩
    rw [from_date_id]
    simp only [hyv, hmv, hdv, bind, Except.bind]
    rw [pyDate_new, if_neg]
    rintro ⟨hc, -⟩
    omega

-- C2 counterexample

/-- Closed form of `generate_insights` on a single-fact database: the
achievement branch of the source, laid bare. -/
theorem generate_insights_db1 (dir : String) (a t : Option ℚ) :
    generate_insights (db1 dir a t) none 0 =
      (if truthyQ t && truthyQ a then
        if dir = "higher_is_better" then
          if oGE a t then [mkSuccess "KPI1" a t]
          else if oLT a (oScale t (4/5)) then [mkDanger "KPI1" a t] else []
        else
          if oLE a t then [mkSuccess "KPI1" a t]
          else if oGT a (oScale t (3/2)) then [mkDanger "KPI1" a t] else []
      else []) := by
  simp [generate_insights, db1, kpi_query, joinKpi, sortByDateDesc, insertByDateDesc,
    matchDept, uniqueFirst]

-- C5

/-! ## Claim theorems -/

/-- C1 (counterexample): the KPI card status does not use the
lower_is_better tiers when the KPI is lower_is_better.  For actual 12 vs
target 8 the lower_is_better tier is at-risk, rendered amber
(`src/app.py` line 583), yet `create_kpi_card` — which receives no
`target_direction` — colors the card green (on-target), because it applies
the higher_is_better ratio tiers to ratio 1.5. -/
theorem card_ignores_direction_cex :
    (create_kpi_card_status (some 12) (some 8)).1 = "green"
    ∧ spec_lower_tier 12 8 = "at-risk"
    ∧ statusColor (spec_lower_tier 12 8) = "amber" := by
  have h2 : spec_lower_tier 12 8 = "at-risk" := by norm_num [spec_lower_tier]
  refine ⟨?_, h2, ?_⟩
  · norm_num [create_kpi_card_status, truthyQ, oGE]
  · rw [h2]; decide

-- C1 amended

/-- C1 (amended): the insight generator's achievement classification
branches on `target_direction` and matches the spec's lower/higher tier
systems (success emitted exactly on the on-target tier, danger exactly on
the breach tier), but the KPI card's status color always equals the
higher_is_better tier's color, for any direction. -/
theorem status_direction_branching (a t : ℚ) (ht : 0 < t) (ha : a ≠ 0) :
    (create_kpi_card_status (some a) (some t)).1 = statusColor (spec_higher_tier a t)
    ∧ generate_insights (db1 "lower_is_better" (some a) (some t)) none 0 =
      (if spec_lower_tier a t = "on-target" then [mkSuccess "KPI1" (some a) (some t)]
       else if spec_lower_tier a t = "breach" then [mkDanger "KPI1" (some a) (some t)]
       else [])
    ∧ generate_insights (db1 "higher_is_better" (some a) (some t)) none 0 =
      (if spec_higher_tier a t = "on-target" then [mkSuccess "KPI1" (some a) (some t)]
       else if spec_higher_tier a t = "breach" then [mkDanger "KPI1" (some a) (some t)]
       else []) := by
  have htt : (truthyQ (some t) && truthyQ (some a)) = true := by
    simp [truthyQ, ha, ht.ne']
  refine ⟨?_, ?_, ?_⟩
  · rw [create_kpi_card_status, if_pos (by simp [truthyQ, ht.ne'])]
    simp only [ht.ne', ite_false, if_neg, ne_eq, not_false_iff, if_pos]
    rw [spec_higher_tier, statusColor]
    by_cases h1 : a / t ≥ 1
    · rw [if_pos (show oGE (some (a/t)) (some 1) = true by simp [oGE, h1]), if_pos h1]
      simp [statusColor]
    · rw [if_neg (show ¬ oGE (some (a/t)) (some 1) = true by simp [oGE]; linarith), if_neg h1]
      by_cases h2 : a / t ≥ 4/5
      · rw [if_pos (show oGE (some (a/t)) (some (4/5)) = true by simp [oGE, h2]), if_pos h2]
        simp [statusColor]
      · rw [if_neg (show ¬ oGE (some (a/t)) (some (4/5)) = true by simp [oGE]; linarith),
          if_neg h2]
        simp [statusColor]
  · rw [generate_insights_db1,
      if_neg (show ¬("lower_is_better" = "higher_is_better") by decide), if_pos htt,
      spec_lower_tier]
    by_cases h1 : a ≤ t
    · rw [if_pos (show oLE (some a) (some t) = true by simp [oLE, h1]), if_pos h1,
        if_pos rfl]
    · rw [if_neg (show ¬ oLE (some a) (some t) = true by simp [oLE]; linarith), if_neg h1]
      by_cases h2 : a ≤ 3/2 * t
      · rw [if_neg (show ¬ oGT (some a) (oScale (some t) (3/2)) = true by
          simp [oGT, oScale]; linarith), if_pos h2, if_neg (by decide), if_neg (by decide)]
      · rw [if_pos (show oGT (some a) (oScale (some t) (3/2)) = true by
          simp [oGT, oScale]; linarith), if_neg h2, if_neg (by decide), if_pos rfl]
  · rw [generate_insights_db1, if_pos rfl, if_pos htt, spec_higher_tier]
    by_cases h1 : t ≤ a
    · rw [if_pos (show oGE (some a) (some t) = true by simp [oGE, h1]),
        if_pos (show a / t ≥ 1 by rw [ge_iff_le, le_div_iff₀ ht]; linarith), if_pos rfl]
    · rw [if_neg (show ¬ oGE (some a) (some t) = true by simp [oGE]; linarith),
        if_neg (show ¬ a / t ≥ 1 by rw [ge_iff_le, le_div_iff₀ ht]; intro hc; linarith)]
      by_cases h2 : 4/5 * t ≤ a
      · rw [if_neg (show ¬ oLT (some a) (oScale (some t) (4/5)) = true by
          simp [oLT, oScale]; linarith),
          if_pos (show a / t ≥ 4/5 by rw [ge_iff_le, le_div_iff₀ ht]; linarith),
          if_neg (by decide), if_neg (by decide)]
      · rw [if_pos (show oLT (some a) (oScale (some t) (4/5)) = true by
          simp [oLT, oScale]; linarith),
          if_neg (show ¬ a / t ≥ 4/5 by rw [ge_iff_le, le_div_iff₀ ht]; intro hc; linarith),
          if_neg (by decide), if_pos rfl]

-- C6 amended: every emitted insight is an achievement insight

/-- C1 (witness): the amended theorem applied at actual 150, target 100. -/
theorem status_direction_branching_witness :
    (create_kpi_card_status (some 150) (some 100)).1 =
      statusColor (spec_higher_tier 150 100) :=
  (status_direction_branching 150 100 (by norm_num) (by norm_num)).1

/-- C2 (counterexample): 0001-01-02 is a valid calendar date, but the
round trip fails: its date id 10102 has five digits, so `from_date_id`
raises on the empty day slice. -/
theorem date_codec_roundtrip_cex :
    (⟨1, 1, 2⟩ : PyDate).validB = true
    ∧ from_date_id (to_date_id ⟨1, 1, 2⟩) ≠ .ok ⟨1, 1, 2⟩ := by
  refine ⟨by decide, ?_⟩
  have hev : from_date_id (to_date_id ⟨1, 1, 2⟩) = .error "invalid literal for int" := rfl
  rw [hev]
  intro hc
  exact Except.noConfusion hc

-- C2 amended

/-- C2 (amended): `from_date_id` inverts `to_date_id` on every valid date
with a four-digit year, and `to_date_id` is strictly monotonic with
calendar order and injective on all valid dates. -/
theorem date_codec_spec :
    (∀ d : PyDate, d.validB = true → 1000 ≤ d.year →
        from_date_id (to_date_id d) = .ok d)
    ∧ (∀ d1 d2 : PyDate, d1.validB = true → d2.validB = true → d1.calLt d2 →
        to_date_id d1 < to_date_id d2)
    ∧ (∀ d1 d2 : PyDate, d1.validB = true → d2.validB = true →
        to_date_id d1 = to_date_id d2 → d1 = d2) := by
  refine ⟨?_, ?_, ?_⟩
  · rintro ⟨y, m, dd⟩ hv hy1000
    rw [validB_iff] at hv
    simp only at hv hy1000
    obtain ⟨h1, h2, h3, h4, h5, h6⟩ := hv
    have hdm := daysInMonth_le y m
    rw [to_date_id_val _ (by simp; omega) (by simp; omega)]
    simp only
    rw [from_date_id_eight (y * 10000 + m * 100 + dd) (by norm_num; omega) (by norm_num; omega)]
    have e1 : (y * 10000 + m * 100 + dd) / 10000 = y := by omega
    have e2 : (y * 10000 + m * 100 + dd) / 100 % 100 = m := by omega
    have e3 : (y * 10000 + m * 100 + dd) % 100 = dd := by omega
    rw [e1, e2, e3, pyDate_new, if_pos]
    · simp
    · refine ⟨by omega, by omega, by omega, by omega, by omega, ?_⟩
      rw [Int.toNat_natCast, Int.toNat_natCast]
      omega
  · rintro ⟨y1, m1, d1⟩ ⟨y2, m2, d2⟩ hv1 hv2 hlt
    rw [validB_iff] at hv1 hv2
    simp only at hv1 hv2
    obtain ⟨a1, a2, a3, a4, a5, a6⟩ := hv1
    obtain ⟨b1, b2, b3, b4, b5, b6⟩ := hv2
    have hd1 := daysInMonth_le y1 m1
    have hd2 := daysInMonth_le y2 m2
    rw [to_date_id_val _ (by simp; omega) (by simp; omega),
      to_date_id_val _ (by simp; omega) (by simp; omega)]
    rw [PyDate.calLt] at hlt
    simp only at hlt
    have : (y1 * 10000 + m1 * 100 + d1 : Nat) < y2 * 10000 + m2 * 100 + d2 := by
      rcases hlt with h | ⟨he, h | ⟨hme, hd⟩⟩ <;> omega
    exact_mod_cast this
  · rintro ⟨y1, m1, d1⟩ ⟨y2, m2, d2⟩ hv1 hv2 heq
    rw [validB_iff] at hv1 hv2
    simp only at hv1 hv2
    obtain ⟨a1, a2, a3, a4, a5, a6⟩ := hv1
    obtain ⟨b1, b2, b3, b4, b5, b6⟩ := hv2
    have hd1 := daysInMonth_le y1 m1
    have hd2 := daysInMonth_le y2 m2
    rw [to_date_id_val _ (by simp; omega) (by simp; omega),
      to_date_id_val _ (by simp; omega) (by simp; omega)] at heq
    have heqn : (y1 * 10000 + m1 * 100 + d1 : Nat) = y2 * 10000 + m2 * 100 + d2 := by
      exact_mod_cast heq
    have : y1 = y2 ∧ m1 = m2 ∧ d1 = d2 := by omega
    simp [this.1, this.2.1, this.2.2]

-- C3 counterexample

/-- C2 (witness): the amended theorem applied at 2023-05-17 / 2023-05-18. -/
theorem date_codec_spec_witness :
    from_date_id (to_date_id ⟨2023, 5, 17⟩) = .ok ⟨2023, 5, 17⟩
    ∧ to_date_id ⟨2023, 5, 17⟩ < to_date_id ⟨2023, 5, 18⟩ :=
  ⟨date_codec_spec.1 ⟨2023, 5, 17⟩ (by decide) (by norm_num),
    date_codec_spec.2.1 ⟨2023, 5, 17⟩ ⟨2023, 5, 18⟩ (by decide) (by decide)
      (Or.inr ⟨rfl, Or.inr ⟨rfl, by norm_num⟩⟩)⟩

/-- C3 (counterexample): the 7-digit integer 2023011 is not 8 digits, yet
`from_date_id` silently returns 2023-01-01 instead of failing; likewise the
9-digit 202301015 parses from its first 8 characters. -/
theorem from_date_id_seven_digit_cex :
    from_date_id 2023011 = .ok ⟨2023, 1, 1⟩ ∧ (pyStr 2023011).length = 7
    ∧ from_date_id 202301015 = .ok ⟨2023, 1, 1⟩ ∧ (pyStr 202301015).length = 9 :=
  ⟨rfl, rfl, rfl, rfl⟩

/-- C3 (amended): on inputs whose string form has at most 8 characters,
`from_date_id` always errors below `10^6` (including all negatives), and
from `10^6` on returns exactly the date constructor applied to the sliced
components — failing precisely on invalid component triples, never
clamping, but silently accepting valid 7-digit slices. -/
theorem from_date_id_char (n : Int) (hlow : -(10 ^ 7) < n) (hhigh : n < 10 ^ 8) :
    (10 ^ 6 ≤ n → from_date_id n = pyDate_new (sliceY n) (sliceM n) (sliceD n))
    ∧ (n < 10 ^ 6 → ∃ e, from_date_id n = .error e) := by
  constructor
  · intro h6
    have hn0 : 0 ≤ n := le_trans (by norm_num) h6
    obtain ⟨N, rfl⟩ : ∃ N : Nat, n = (N : Int) := ⟨n.toNat, (Int.toNat_of_nonneg hn0).symm⟩
    by_cases h7 : (N : Int) < 10 ^ 7
    · rw [from_date_id_seven N (by norm_num at h6 ⊢; omega) (by norm_num at h7 ⊢; omega)]
      rw [sliceY, if_pos h7, sliceM, if_pos h7, sliceD, if_pos h7]
      have e1 : ((N / 1000 : Nat) : Int) = (N : Int) / 1000 := by omega
      have e2 : ((N / 10 % 100 : Nat) : Int) = (N : Int) / 10 % 100 := by omega
      have e3 : ((N % 10 : Nat) : Int) = (N : Int) % 10 := by omega
      rw [e1, e2, e3]
    · rw [from_date_id_eight N (by norm_num at h7 ⊢; omega) (by norm_num at hhigh ⊢; omega)]
      rw [sliceY, if_neg h7, sliceM, if_neg h7, sliceD, if_neg h7]
      have e1 : ((N / 10000 : Nat) : Int) = (N : Int) / 10000 := by omega
      have e2 : ((N / 100 % 100 : Nat) : Int) = (N : Int) / 100 % 100 := by omega
      have e3 : ((N % 100 : Nat) : Int) = (N : Int) % 100 := by omega
      rw [e1, e2, e3]
  · intro h6
    by_cases hneg : n < 0
    · exact from_date_id_negative n hneg hlow
    · push_neg at hneg
      obtain ⟨N, rfl⟩ : ∃ N : Nat, n = (N : Int) := ⟨n.toNat, (Int.toNat_of_nonneg hneg).symm⟩
      exact from_date_id_small N (by norm_num at h6 ⊢; omega)

/-- C3 (witness): the amended theorem applied at 20230101. -/
theorem from_date_id_char_witness :
    from_date_id 20230101 =
      pyDate_new (sliceY 20230101) (sliceM 20230101) (sliceD 20230101) :=
  (from_date_id_char 20230101 (by norm_num) (by norm_num)).1 (by norm_num)

/-- C4: `calculate_trend` equals the specification's reference definition
for every series and window size, and the spec scenario series
`[80, 90, 95, 100, 110, 120, 130, 140, 150]` with `periods = 3` is
classified up with change `4900/119`, within `0.1` of `+41.2`. -/
theorem calculate_trend_matches_ref :
    (∀ (s : List ℚ) (p : Nat), calculate_trend s p = trend_ref s p)
    ∧ calculate_trend [80, 90, 95, 100, 110, 120, 130, 140, 150] 3 = ("up", 4900 / 119)
    ∧ |(4900 : ℚ) / 119 - 412 / 10| < 1 / 10 := by
  refine ⟨?_, ?_, by rw [abs_lt]; norm_num⟩
  · intro s p
    unfold calculate_trend trend_ref
    rw [← List.rtake_eq_reverse_take_reverse, ← List.rdrop_eq_reverse_drop_reverse,
      List.rtake, List.rdrop]
  · norm_num [calculate_trend, listMean]

-- C9

/-- C5: for a lower_is_better KPI with a positive target, the danger
(breach) insight fires exactly when `actual > 1.5 * target` — the boundary
is strict — and at the exact boundary `actual = 12`, `target = 8` no
insight at all is emitted (the at-risk tier is silent). -/
theorem lower_breach_strict (a t : ℚ) (ht : 0 < t) :
    ((∃ i ∈ generate_insights (db1 "lower_is_better" (some a) (some t)) none 0,
        i.type = "danger") ↔ a > 3 / 2 * t)
    ∧ generate_insights (db1 "lower_is_better" (some 12) (some 8)) none 0 = [] := by
  constructor
  · rw [generate_insights_db1]
    rw [if_neg (show ¬("lower_is_better" = "higher_is_better") by decide)]
    by_cases ha : a = 0
    · subst ha
      simp [truthyQ]
      nlinarith
    · rw [if_pos (show (truthyQ (some t) && truthyQ (some a)) = true by
        simp [truthyQ, ha, ht.ne'])]
      by_cases h1 : oLE (some a) (some t)
      · rw [if_pos h1]
        simp [oLE] at h1
        simp [mkSuccess]
        linarith
      · rw [if_neg h1]
        simp [oLE] at h1
        by_cases h2 : oGT (some a) (oScale (some t) (3/2))
        · rw [if_pos h2]
          simp [oGT, oScale] at h2
          simp [mkDanger]
          linarith
        · rw [if_neg h2]
          simp [oGT, oScale] at h2
          simp
          linarith
  · norm_num [generate_insights, db1, kpi_query, joinKpi, sortByDateDesc, insertByDateDesc,
      matchDept, uniqueFirst, truthyQ, oLE, oGT, oScale]
    decide

-- C10

/-- C5 (witness): the theorem applied at actual 13, target 8. -/
theorem lower_breach_strict_witness :
    (∃ i ∈ generate_insights (db1 "lower_is_better" (some 13) (some 8)) none 0,
      i.type = "danger") ↔ (13 : ℚ) > 3 / 2 * 8 :=
  (lower_breach_strict 13 8 (by norm_num)).1

/-- C6 (counterexample): a KPI with three facts in the window whose value
series `[100, 100, 200]` has a trend change of `+100/3` percent (absolute
value above 10) produces no insight at all — the generator never runs the
trend classifier. -/
theorem no_trend_insight_cex :
    generate_insights dbTrend none 0 = []
    ∧ (dbTrend.fact_kpi_data.filter (fun r => r.kpi_id = "K")).length = 3
    ∧ |(calculate_trend [100, 100, 200] 7).2| > 10 := by
  refine ⟨?_, by decide, ?_⟩
  · norm_num [generate_insights, dbTrend, kpi_query, joinKpi, sortByDateDesc,
      insertByDateDesc, matchDept, uniqueFirst, truthyQ, oGE, oLT, oScale]
  · rw [show (calculate_trend [100, 100, 200] 7).2 = 100/3 from by
      norm_num [calculate_trend, listMean]]
    rw [abs_of_nonneg (by norm_num)]
    norm_num

-- C7 amended: output is independent of the work-item table

/-- C6 (amended): every insight `generate_insights` emits is an
achievement insight of type success or danger; no trend insight exists. -/
theorem insight_types_only_achievement (db : DB) (dept : Option String) (w : Int)
    (i : Insight) (hi : i ∈ generate_insights db dept w) :
    i.type = "success" ∨ i.type = "danger" := by
  simp only [generate_insights] at hi
  by_cases he : (kpi_query db dept w).isEmpty
  · simp [he] at hi
  · simp only [he, if_false, Bool.false_eq_true, ite_false] at hi
    rw [List.mem_flatMap] at hi
    obtain ⟨kid, -, hi⟩ := hi
    rcases hfil : (kpi_query db dept w).filter (fun r => r.kpi_id = kid) with - | ⟨latest, rest⟩
    · rw [hfil] at hi
      simp at hi
    · rw [hfil] at hi
      dsimp only at hi
      split_ifs at hi <;> simp_all [mkSuccess, mkDanger]

-- C6 counterexample: 3 facts in window, |change| > 10, yet no trend insight

/-- C6 (witness): the amended theorem applied to the success insight
emitted for actual 150 vs target 100. -/
theorem insight_types_witness :
    (mkSuccess "KPI1" (some 150) (some 100)).type = "success"
    ∨ (mkSuccess "KPI1" (some 150) (some 100)).type = "danger" :=
  insight_types_only_achievement (db1 "higher_is_better" (some 150) (some 100)) none 0
    (mkSuccess "KPI1" (some 150) (some 100))
    (by
      rw [show generate_insights (db1 "higher_is_better" (some 150) (some 100)) none 0 =
          [mkSuccess "KPI1" (some 150) (some 100)] from by
        rw [generate_insights_db1]
        norm_num [truthyQ, oGE]]
      exact List.mem_singleton.mpr rfl)

/-- C7 (counterexample): with one overdue, non-terminal, High-risk work
item (the spec's overdue and high-risk counts are both 1), the insight
generator emits nothing: it performs no scan over the work-item table. -/
theorem no_work_item_insights_cex :
    generate_insights ⟨[], [], [wiOverdue]⟩ none 0 = []
    ∧ spec_overdue_count [wiOverdue] 20230110 = 1
    ∧ spec_high_risk_count [wiOverdue] = 1 := by
  refine ⟨rfl, by decide, by decide⟩

-- C8

/-- C7 (amended): the output of `generate_insights` is independent of the
`fact_work_item` table — the function reads only the KPI fact/definition
join, so no overdue or high-risk scan exists. -/
theorem insights_ignore_work_items (db : DB) (dept : Option String) (w : Int)
    (wis : List WorkItem) :
    generate_insights { db with fact_work_item := wis } dept w =
      generate_insights db dept w := rfl

-- C7 counterexample

/-- C8: when the KPI fact stream joined over the lookback window is
empty, `generate_insights` returns the empty list (the embedding is a total
function, so no exception is possible on this path). -/
theorem empty_kpi_input_no_insights (db : DB) (dept : Option String) (w : Int)
    (h : kpi_query db dept w = []) : generate_insights db dept w = [] := by
  simp [generate_insights, h]

-- C4

/-- C8 (witness): the theorem applied to the empty database. -/
theorem empty_kpi_input_no_insights_witness :
    generate_insights ⟨[], [], []⟩ none 0 = [] :=
  empty_kpi_input_no_insights ⟨[], [], []⟩ none 0 rfl

/-- C9: `login` succeeds exactly when an enabled user row with the given
username exists whose stored hash equals the digest of the supplied
password (the `sha256` digest of `hashlib` is modelled as an abstract
function); on success the session auth record is written from that row, on
failure the session state is returned unchanged.  Usernames are unique
(`username` is the table's primary key), which the `Nodup` hypothesis
records. -/
theorem login_spec (sha256 : String → String) (users : List UserRow)
    (sess : Option AuthState) (u p : String)
    (hnd : (users.map UserRow.username).Nodup) :
    ((login sha256 users sess u p).1 = true ↔
      ∃ r ∈ users, r.username = u ∧ r.is_enabled = 1 ∧ r.password_hash = sha256 p)
    ∧ ((login sha256 users sess u p).1 = false →
        (login sha256 users sess u p).2 = sess)
    ∧ ((login sha256 users sess u p).1 = true →
        ∃ r ∈ users, r.username = u ∧ r.is_enabled = 1 ∧ r.password_hash = sha256 p ∧
          (login sha256 users sess u p).2 = some ⟨true, r.username, r.role, r.dept_id⟩) := by
  unfold login
  rcases hfil : users.filter (fun r => r.username = u ∧ r.is_enabled = 1) with - | ⟨row, rest⟩
  · rw [hfil]
    dsimp only
    rw [List.filter_eq_nil_iff] at hfil
    simp only [decide_eq_true_eq] at hfil
    refine ⟨?_, fun _ => rfl, fun h => nomatch h⟩
    simp only [Bool.false_eq_true, false_iff]
    rintro ⟨r, hr, hru, hre, -⟩
    exact hfil r hr ⟨hru, hre⟩
  · have hrowmem : row ∈ users.filter (fun r => r.username = u ∧ r.is_enabled = 1) := by
      rw [hfil]; exact List.mem_cons_self _ _
    obtain ⟨hrowin, hrowp⟩ := List.mem_filter.mp hrowmem
    simp only [decide_eq_true_eq] at hrowp
    obtain ⟨hrowu, hrowe⟩ := hrowp
    rw [hfil]
    dsimp only
    by_cases hpw : row.password_hash = sha256 p
    · rw [if_neg (not_not_intro hpw)]
      exact ⟨iff_of_true rfl ⟨row, hrowin, hrowu, hrowe, hpw⟩,
        fun h => Bool.noConfusion h,
        fun _ => ⟨row, hrowin, hrowu, hrowe, hpw, rfl⟩⟩
    · rw [if_pos hpw]
      refine ⟨?_, fun _ => rfl, fun h => Bool.noConfusion h⟩
      simp only [Bool.false_eq_true, false_iff]
      rintro ⟨r, hr, hru, hre, hrh⟩
      have hrfil : r ∈ users.filter (fun x => x.username = u ∧ x.is_enabled = 1) := by
        rw [List.mem_filter]
        exact ⟨hr, by simp [hru, hre]⟩
      rw [hfil, List.mem_cons] at hrfil
      rcases hrfil with hEq | hrest
      · exact hpw (hEq ▸ hrh)
      · have hsub : ((users.filter (fun x => x.username = u ∧ x.is_enabled = 1)).map
            UserRow.username).Sublist (users.map UserRow.username) :=
          (List.filter_sublist users).map UserRow.username
        have hndf := hnd.sublist hsub
        rw [hfil, List.map_cons, List.nodup_cons] at hndf
        exact hndf.1 (by
          rw [hrowu, ← hru]
          exact List.mem_map_of_mem UserRow.username hrest)

-- ## Digit infrastructure

/-- C9 (witness): the theorem applied to a one-row user table. -/
theorem login_spec_witness :
    ((login (fun s => s ++ "#") [⟨"admin", "pw#", "Admin", none, none, 1⟩]
        none "admin" "pw").1 = true ↔
      ∃ r ∈ [(⟨"admin", "pw#", "Admin", none, none, 1⟩ : UserRow)],
        r.username = "admin" ∧ r.is_enabled = 1 ∧
          r.password_hash = (fun s => s ++ "#") "pw") :=
  (login_spec (fun s => s ++ "#") [⟨"admin", "pw#", "Admin", none, none, 1⟩]
    none "admin" "pw" (by simp)).1

/-- C10: when the most recent fact's actual value is 0 (falsy) or NULL
(`NaN`, truthy but incomparable), no achievement insight is emitted for the
KPI, even though the target is nonzero and an actual of 0 lies in the
higher_is_better breach band. -/
theorem zero_or_null_actual_silent (t : ℚ) (ht : 0 < t) :
    generate_insights (db1 "higher_is_better" (some 0) (some t)) none 0 = []
    ∧ generate_insights (db1 "higher_is_better" none (some t)) none 0 = []
    ∧ spec_higher_tier 0 t = "breach" := by
  refine ⟨?_, ?_, ?_⟩
  · rw [generate_insights_db1]
    simp [truthyQ]
  · rw [generate_insights_db1]
    simp [truthyQ, oGE, oLT, ht.ne']
  · rw [spec_higher_tier]
    rw [if_neg (by norm_num), if_neg (by norm_num)]

-- C1 counterexample

/-- C10 (witness): the theorem applied at target 100. -/
theorem zero_or_null_actual_silent_witness :
    generate_insights (db1 "higher_is_better" (some 0) (some 100)) none 0 = [] :=
  (zero_or_null_actual_silent 100 (by norm_num)).1

